import Mathlib

/-
Shallow embedding of the product-services repository (FastAPI, two routers:
src/routers/ProductType.py and src/routers/products.py).

The database is modelled as lists of rows together with identity counters for
the backend-generated ids.  Each endpoint handler becomes a pure function from
the database state (plus the request data and, where the source consults the
environment, explicit parameters for the generated unique file name, the
presence of the old physical file, a concurrent-deletion race, the driver
returning an inserted id, and the outcome of the peer-sync HTTP call) to the
committed database state and an `Except` result mirroring fastapi's
HTTPException (status code + detail).  An exception raised before `commit`
leaves the committed state unchanged (explicit `rollback` in ProductType.py,
discard-on-close in products.py), which the definitions reflect by returning
the input state on every error branch.
-/

namespace ProductServices

/-- Models `fastapi.HTTPException`: an HTTP status code plus a detail string. -/
structure HTTPErr where
  code : Nat
  detail : String
deriving Repr, DecidableEq

/-- `str(e)` of an HTTPException: starlette formats it as the status code,
a colon-space, then the detail. -/
def HTTPErr.toMessage (e : HTTPErr) : String :=
  toString e.code ++ ": " ++ e.detail

/-- True exactly on `Except.error`. -/
def isErr {ε α : Type} : Except ε α → Bool
  | .error _ => true
  | .ok _ => false

/-- Row of the ProductType table: productTypeID, productTypeName, SizeRequired
(stored as an integer; truthiness is `≠ 0`). -/
structure ProductTypeRow where
  ptId : Nat
  ptName : String
  sizeRequired : Int
deriving Repr, DecidableEq

/-- Row of the Products table. -/
structure ProductRow where
  pId : Nat
  pName : String
  typeId : Nat
  category : String
  description : Option String
  price : Int
  image : Option String
deriving Repr, DecidableEq

/-- Row of the Size table. -/
structure SizeRow where
  sId : Nat
  productId : Nat
  sizeName : String
deriving Repr, DecidableEq

/-- Row of the Recipes table (links a recipe to its product). -/
structure RecipeRow where
  rId : Nat
  productId : Nat
deriving Repr, DecidableEq

/-- Row of the RecipeIngredients table. -/
structure RecipeIngredientRow where
  recipeId : Nat
  ingredientId : Nat
deriving Repr, DecidableEq

/-- Row of the Ingredients table (only the fields the embedded queries read). -/
structure IngredientRow where
  iId : Nat
  status : String
deriving Repr, DecidableEq

/-- Row of the RecipeMaterials table. -/
structure RecipeMaterialRow where
  recipeId : Nat
  materialId : Nat
deriving Repr, DecidableEq

/-- Row of the Materials table (only the fields the embedded queries read). -/
structure MaterialRow where
  mId : Nat
  status : String
deriving Repr, DecidableEq

/-- The relational state: the tables plus the identity counters that produce
the ids returned by `OUTPUT INSERTED...` clauses. -/
structure DB where
  productTypes : List ProductTypeRow
  products : List ProductRow
  sizes : List SizeRow
  recipes : List RecipeRow
  recipeIngredients : List RecipeIngredientRow
  ingredients : List IngredientRow
  recipeMaterials : List RecipeMaterialRow
  materials : List MaterialRow
  nextProductTypeId : Nat
  nextProductId : Nat
  nextSizeId : Nat
deriving Repr, DecidableEq

/-- ASCII lower-casing of one character.  (The core `Char.toLower` and the
`String` primitives built on byte positions do not reduce in the kernel, so
the embedding uses structurally recursive equivalents over `List Char`.) -/
def charLower (c : Char) : Char :=
  if 'A' ≤ c ∧ c ≤ 'Z' then Char.ofNat (c.toNat + 32) else c

/-- Lower-casing of a string (python `str.lower` on ASCII data). -/
def strToLower (s : String) : String := ⟨s.data.map charLower⟩

/-- ASCII whitespace, the characters python `str.strip` removes in the inputs
this service sees. -/
def isSpaceChar (c : Char) : Bool := c == ' ' || c == '\t' || c == '\n' || c == '\r'

/-- python `str.strip`: remove leading and trailing whitespace. -/
def strStrip (s : String) : String :=
  ⟨((s.data.dropWhile isSpaceChar).reverse.dropWhile isSpaceChar).reverse⟩

/-- python `str.startswith`. -/
def strStartsWith (s pre : String) : Bool := pre.data.isPrefixOf s.data

/-- Split a character list on a separator character (python `str.split`). -/
def splitOnChar (c : Char) (l : List Char) : List (List Char) :=
  l.foldr (fun ch acc =>
    if ch == c then [] :: acc
    else match acc with
      | [] => [[ch]]
      | h :: t => (ch :: h) :: t) [[]]

/-- Case-insensitive string equality, modelling the
`COLLATE Latin1_General_CI_AS` comparisons in ProductType.py. -/
def ciEq (a b : String) : Bool := strToLower a == strToLower b

/-- Outcome of the best-effort peer-sync HTTP call to the POS service
(port 9001): success, an HTTP status error, a request (network) error, or any
other unexpected exception. -/
inductive SyncOutcome where
  | ok
  | httpError (code : Nat) (text : String)
  | reqError (text : String)
  | otherError (text : String)
deriving Repr, DecidableEq

/-- The sync_message_update string built by `update_product_type` for each
outcome of the sync call (f-strings of ProductType.py, lines 183-192). -/
def syncMsgUpdate (ptid : Nat) (s : SyncOutcome) : String :=
  match s with
  | .ok =>
      "Product type update also synced to POS (9001) for ID " ++ toString ptid ++ "."
  | .httpError c t =>
      "HTTP error syncing update to POS (9001) for ID " ++ toString ptid ++ ": "
        ++ toString c ++ " - " ++ t
  | .reqError t =>
      "Request error syncing update to POS (9001) for ID " ++ toString ptid ++ ": " ++ t
  | .otherError t =>
      "An unexpected error occurred during update sync to POS (9001) for ID "
        ++ toString ptid ++ ": " ++ t

/-- The sync_message_delete string built by `delete_product_type`; a 404 from
the peer gets an extra "might be acceptable" annotation. -/
def syncMsgDelete (ptid : Nat) (s : SyncOutcome) : String :=
  match s with
  | .ok =>
      "Product type delete also synced to POS (9001) for ID " ++ toString ptid ++ "."
  | .httpError c t =>
      "HTTP error syncing delete to POS (9001) for ID " ++ toString ptid ++ ": "
        ++ toString c ++ " - " ++ t
        ++ (if c == 404 then " (POS reported not found, which might be acceptable)." else "")
  | .reqError t =>
      "Request error syncing delete to POS (9001) for ID " ++ toString ptid ++ ": " ++ t
  | .otherError t =>
      "An unexpected error occurred during delete sync to POS (9001) for ID "
        ++ toString ptid ++ ": " ++ t

/-- Request body of POST /ProductType/create. -/
structure PTCreateRequest where
  productTypeName : String
  SizeRequired : Int
deriving Repr, DecidableEq

/-- Request body of PUT /ProductType/(id). -/
structure PTUpdateRequest where
  productTypeName : String
  SizeRequired : Int
deriving Repr, DecidableEq

/-- Success body of create_product_type. -/
structure PTCreateResponse where
  message : String
  productTypeID : Nat
  productTypeName : String
  SizeRequired : Int
deriving Repr, DecidableEq

/-- Success body of update_product_type / delete_product_type: a single
message that carries the peer-sync annotation. -/
structure SyncedResponse where
  message : String
deriving Repr, DecidableEq

/-- Body of the `try` block of `create_product_type` (ProductType.py lines
59-81): case-insensitive duplicate-name check, then the insert.  `insertOk`
models whether the backend returns an inserted id row (the source's guard
against silently no-oping drivers); when it does not, the handler rolls back
and raises 500. -/
def create_product_type_body (db : DB) (request : PTCreateRequest) (insertOk : Bool) :
    DB × Except HTTPErr Nat :=
  if db.productTypes.any (fun r => ciEq r.ptName request.productTypeName) then
    (db, .error ⟨400, "Product type name already exists."⟩)
  else if !insertOk then
    (db, .error ⟨500, "Failed to retrieve ID after insert."⟩)
  else
    let newId := db.nextProductTypeId
    let db' := { db with
      productTypes := db.productTypes ++ [⟨newId, request.productTypeName, request.SizeRequired⟩],
      nextProductTypeId := db.nextProductTypeId + 1 }
    (db', .ok newId)

/-- `create_product_type` (POST /ProductType/create).  The handler's only
`except` clause is `except Exception`, and fastapi's HTTPException is an
Exception, so every error raised in the `try` block — including the
duplicate-name HTTPException(400) and the no-id HTTPException(500) — is caught,
rolled back, and re-raised as a 500 whose detail wraps `str(e)`. -/
def create_product_type (db : DB) (request : PTCreateRequest) (insertOk : Bool) :
    DB × Except HTTPErr PTCreateResponse :=
  match create_product_type_body db request insertOk with
  | (_, .error e) =>
      (db, .error ⟨500, "Failed to save to DB: " ++ e.toMessage⟩)
  | (db', .ok newId) =>
      (db', .ok ⟨"Product type created successfully.", newId,
                 request.productTypeName, request.SizeRequired⟩)

/-- `update_product_type` (PUT /ProductType/(id), ProductType.py lines
116-195): existence check by id, case-insensitive name collision against other
ids, the UPDATE (with its affected-row-count guard; `raceRemoved` models a
concurrent deletion between check and write), commit, then the best-effort
peer sync whose outcome is only appended to the success message. -/
def update_product_type (db : DB) (product_type_id : Nat) (request : PTUpdateRequest)
    (raceRemoved : Bool) (sync : SyncOutcome) : DB × Except HTTPErr SyncedResponse :=
  if (db.productTypes.find? (fun r => r.ptId == product_type_id)).isNone then
    (db, .error ⟨404, "Product type not found in primary service (8001) for update."⟩)
  else if db.productTypes.any
      (fun r => ciEq r.ptName request.productTypeName && r.ptId != product_type_id) then
    (db, .error ⟨400, "Product type name already exists for another type."⟩)
  else
    -- the UPDATE statement's affected-row count; raceRemoved models a
    -- concurrent deletion between check and write
    if (if raceRemoved then 0
        else (db.productTypes.filter (fun r => r.ptId == product_type_id)).length) == 0 then
      (db, .error ⟨404,
        "Product type not found during update execution or no changes were made."⟩)
    else
      let db' := { db with productTypes := db.productTypes.map (fun r =>
        if r.ptId == product_type_id then
          { r with ptName := request.productTypeName, sizeRequired := request.SizeRequired }
        else r) }
      (db', .ok ⟨strStrip ("Product type updated successfully in primary service (8001). "
                    ++ syncMsgUpdate product_type_id sync)⟩)

/-- `delete_product_type` (DELETE /ProductType/(id), ProductType.py lines
198-265): existence check, the DELETE (a foreign-key constraint error from the
backend — some product still references the type — is rolled back and
translated to 409; `raceRemoved` models a concurrent deletion, surfacing as an
affected-row count of zero), commit, then best-effort peer sync appended to
the success message. -/
def delete_product_type (db : DB) (product_type_id : Nat)
    (raceRemoved : Bool) (sync : SyncOutcome) : DB × Except HTTPErr SyncedResponse :=
  if (db.productTypes.find? (fun r => r.ptId == product_type_id)).isNone then
    (db, .error ⟨404, "Product type not found in primary service (8001) for deletion."⟩)
  else if raceRemoved then
    (db, .error ⟨404,
      "Product type not found during delete execution, though it existed moments ago."⟩)
  else if db.products.any (fun p => p.typeId == product_type_id) then
    (db, .error ⟨409,
      "Cannot delete product type: It is currently in use by one or more products."⟩)
  else
    let db' := { db with
      productTypes := db.productTypes.filter (fun r => r.ptId != product_type_id) }
    (db', .ok ⟨strStrip ("Product type deleted successfully from primary service (8001). "
                  ++ syncMsgDelete product_type_id sync)⟩)

/-- The logical path root under which image paths are stored in the DB
(source constant IMAGE_DB_PATH_..., value "/product_images"; renamed here). -/
def imageDbPathRoot : String := "/product_images"

/-- The URL mount point for static files (source constant
IMAGE_URL_STATIC_..., value "/static_files"; renamed here). -/
def imageUrlStaticRoot : String := "/static_files"

/-- Default external base URL (the IS_EXTERNAL_URL environment variable's
fallback). -/
def IS_EXTERNAL_BASE_URL : String := "http://localhost:8001"

/-- `_construct_full_url_for_is_response` (products.py lines 79-82),
parameterised by the configured external base URL: a stored path that is
truthy and starts with the logical image root maps to
base ++ static mount ++ stored path; anything else maps to None. -/
def construct_full_url_for_is_response (base : String) (db_image_path : Option String) :
    Option String :=
  match db_image_path with
  | none => none
  | some p =>
      if p ≠ "" && strStartsWith p imageDbPathRoot then
        some (base ++ imageUrlStaticRoot ++ p)
      else none

/-- The name-and-flag pair returned by `_get_product_type_details`
(products.py lines 84-90). -/
structure TypeDetails where
  name : String
  size_required : Bool
deriving Repr, DecidableEq

/-- `_get_product_type_details`: look the ProductType row up by id and expose
its name and `bool(SizeRequired)`. -/
def get_product_type_details (db : DB) (product_type_id : Nat) : Option TypeDetails :=
  (db.productTypes.find? (fun r => r.ptId == product_type_id)).map
    (fun r => ⟨r.ptName, r.sizeRequired != 0⟩)

/-- An uploaded multipart file: its client-supplied filename and content type. -/
structure UploadedFile where
  filename : String
  contentType : String
deriving Repr, DecidableEq

/-- The final path component (python `Path(p).name`). -/
def pathBaseName (p : String) : String := ⟨(splitOnChar '/' p.data).getLastD []⟩

/-- The extension of the final path component, dot included
(python `Path(p).suffix`): empty when there is no dot, when the name starts
with its only dot, or when the dot is trailing. -/
def pathSuffix (p : String) : String :=
  let name := (splitOnChar '/' p.data).getLastD []
  let parts := splitOnChar '.' name
  if parts.length ≤ 1 then ""
  else
    let ext := parts.getLastD []
    if parts.dropLast = [[]] || ext.isEmpty then "" else ⟨'.' :: ext⟩

/-- Python's `if ProductSize and ProductSize.strip():` followed by
`ProductSize.strip()`: the trimmed size name when the field is present,
truthy, and not whitespace-only; otherwise nothing. -/
def truthyTrimmed : Option String → Option String
  | none => none
  | some s =>
      if s = "" then none else if strStrip s = "" then none else some (strStrip s)

/-- Response model ProductOut of products.py. -/
structure ProductOut where
  ProductID : Nat
  ProductName : String
  ProductTypeID : Nat
  ProductTypeName : String
  ProductCategory : String
  ProductDescription : Option String
  ProductPrice : Int
  ProductImage : Option String
  ProductSizes : Option (List String)
  ProductTypeSizeRequired : Bool
deriving Repr, DecidableEq

/-- Response model ProductSizeOut of products.py. -/
structure ProductSizeOut where
  SizeID : Nat
  ProductID : Nat
  SizeName : String
deriving Repr, DecidableEq

/-- Response model ProductDetailWithStatusOut of products.py. -/
structure ProductDetailWithStatusOut where
  ProductTypeName : String
  ProductCategory : String
  ProductName : String
  Description : Option String
  Price : Int
  Sizes : Option (List String)
  Status : String
deriving Repr, DecidableEq

/-- Form arguments of POST /is_products/products/ plus `freshName`, the
uuid4 string the handler generates for a stored image file name. -/
structure ProductCreateArgs where
  ProductName : String
  ProductTypeID : Nat
  ProductCategory : String
  ProductDescription : Option String
  ProductPrice : Int
  ProductSize : Option String
  ProductImageFile : Option UploadedFile
  freshName : String
deriving Repr, DecidableEq

/-- Form arguments of PUT /is_products/products/(id) plus `freshName` (the
generated image file name) and `oldFileExists` (whether the previously
referenced physical file is present on disk). -/
structure ProductUpdateArgs where
  ProductName : String
  ProductTypeID : Nat
  ProductCategory : String
  ProductDescription : Option String
  ProductPrice : Int
  ProductSize : Option String
  ProductImageFile : Option UploadedFile
  freshName : String
  oldFileExists : Bool
deriving Repr, DecidableEq

/-- The image-validation-and-write block of `create_new_product` (products.py
lines 332-345): content-type check, extension whitelist, then the physical
write under the freshly generated unique name, yielding the stored DB path. -/
def validate_and_store_image (freshName : String) :
    Option UploadedFile → Except HTTPErr (Option String)
  | none => .ok none
  | some f =>
      if !(strStartsWith f.contentType "image/") then
        .error ⟨400, "Uploaded file is not a valid image."⟩
      else
        let ext := strToLower (pathSuffix f.filename)
        if !([".png", ".jpg", ".jpeg", ".gif", ".webp"].contains ext) then
          .error ⟨400, "Unsupported image extension: " ++ ext⟩
        else
          .ok (some (imageDbPathRoot ++ "/" ++ freshName ++ ext))

/-- `create_new_product` (products.py lines 314-367): duplicate
(name, category) check, ProductType existence check, image validation and
write, INSERT of the product row, the single Size insert when the trimmed
ProductSize form field is truthy, commit. -/
def create_new_product (db : DB) (args : ProductCreateArgs) :
    DB × Except HTTPErr ProductOut :=
  if db.products.any
      (fun p => p.pName == args.ProductName && p.category == args.ProductCategory) then
    (db, .error ⟨409, "Product \x27" ++ args.ProductName ++ "\x27 in \x27"
                   ++ args.ProductCategory ++ "\x27 already exists."⟩)
  else
    match get_product_type_details db args.ProductTypeID with
    | none =>
        (db, .error ⟨400, "ProductTypeID " ++ toString args.ProductTypeID ++ " not found."⟩)
    | some type_details =>
        match validate_and_store_image args.freshName args.ProductImageFile with
        | .error e => (db, .error e)
        | .ok is_db_image_path =>
            let new_product_id := db.nextProductId
            let initial_product_size := truthyTrimmed args.ProductSize
            let db1 := { db with
              products := db.products ++
                [(⟨new_product_id, args.ProductName, args.ProductTypeID, args.ProductCategory,
                   args.ProductDescription, args.ProductPrice, is_db_image_path⟩ : ProductRow)],
              nextProductId := db.nextProductId + 1 }
            let db2 := { db1 with
              sizes := db1.sizes ++
                (match initial_product_size with
                 | some sz => [(⟨db1.nextSizeId, new_product_id, sz⟩ : SizeRow)]
                 | none => ([] : List SizeRow)),
              nextSizeId :=
                (match initial_product_size with
                 | some _ => db1.nextSizeId + 1
                 | none => db1.nextSizeId) }
            (db2, .ok ⟨new_product_id, args.ProductName, args.ProductTypeID,
              type_details.name, args.ProductCategory, args.ProductDescription,
              args.ProductPrice,
              construct_full_url_for_is_response IS_EXTERNAL_BASE_URL is_db_image_path,
              initial_product_size.map (fun sz => [sz]),
              type_details.size_required⟩)

/-- The observable side effects of `update_product`, in execution order:
physical file writes/removals, the Products row UPDATE, the Size DELETE and
INSERT statements, and the commit. -/
inductive FileEvent where
  | wroteNewImage (filename : String)
  | removedOldImage (filename : String)
  | productRowUpdate
  | deletedSizes
  | insertedSize (name : String)
  | committed
deriving Repr, DecidableEq

/-- True exactly on `FileEvent.removedOldImage`. -/
def isRemovedOldImage : FileEvent → Bool
  | .removedOldImage _ => true
  | _ => false

/-- True exactly on `FileEvent.productRowUpdate`. -/
def isProductRowUpdate : FileEvent → Bool
  | .productRowUpdate => true
  | _ => false

/-- The image phase of `update_product` (products.py lines 389-398): when a
new file is supplied, write it under the freshly generated unique name and —
when the row referenced an old file and that file exists on disk — remove the
old physical file immediately, before the row UPDATE runs; otherwise keep the
currently stored path.  Returns the path to store and the emitted events. -/
def image_phase_for_update (freshName : String) (oldFileExists : Bool)
    (currentImage : Option String) :
    Option UploadedFile → Option String × List FileEvent
  | none => (currentImage, [])
  | some f =>
      let unique_filename := freshName ++ strToLower (pathSuffix f.filename)
      let newPath := imageDbPathRoot ++ "/" ++ unique_filename
      match currentImage with
      | some oldPath =>
          if oldFileExists then
            (some newPath, [FileEvent.wroteNewImage unique_filename,
                            FileEvent.removedOldImage (pathBaseName oldPath)])
          else (some newPath, [FileEvent.wroteNewImage unique_filename])
      | none => (some newPath, [FileEvent.wroteNewImage unique_filename])

/-- `update_product` (products.py lines 370-422): ProductType existence check,
product existence check, image phase (which removes the old physical file
before the row UPDATE in the source), the Products row UPDATE,
destructive-then-additive Size replacement, commit.  Besides the committed
state and the response it returns the ordered event trace. -/
def update_product (db : DB) (product_id : Nat) (args : ProductUpdateArgs) :
    DB × Except HTTPErr ProductOut × List FileEvent :=
  match get_product_type_details db args.ProductTypeID with
  | none =>
      (db, .error ⟨400, "ProductTypeID " ++ toString args.ProductTypeID ++ " not found."⟩, [])
  | some type_details =>
      match db.products.find? (fun p => p.pId == product_id) with
      | none => (db, .error ⟨404, "Product not found."⟩, [])
      | some current_product =>
          let imgStep := image_phase_for_update args.freshName args.oldFileExists
            current_product.image args.ProductImageFile
          let is_db_image_path_for_update := imgStep.1
          let new_size := truthyTrimmed args.ProductSize
          let db1 := { db with products := db.products.map (fun (p : ProductRow) =>
            if p.pId == product_id then
              { p with pName := args.ProductName, typeId := args.ProductTypeID,
                       category := args.ProductCategory,
                       description := args.ProductDescription, price := args.ProductPrice,
                       image := is_db_image_path_for_update }
            else p) }
          let db2 := { db1 with sizes := db1.sizes.filter (fun s => s.productId != product_id) }
          let db3 := { db2 with
            sizes := db2.sizes ++
              (match new_size with
               | some ns => [(⟨db2.nextSizeId, product_id, ns⟩ : SizeRow)]
               | none => ([] : List SizeRow)),
            nextSizeId :=
              (match new_size with
               | some _ => db2.nextSizeId + 1
               | none => db2.nextSizeId) }
          (db3, .ok ⟨product_id, args.ProductName, args.ProductTypeID,
            type_details.name, args.ProductCategory, args.ProductDescription,
            args.ProductPrice,
            construct_full_url_for_is_response IS_EXTERNAL_BASE_URL
              is_db_image_path_for_update,
            new_size.map (fun ns => [ns]), type_details.size_required⟩,
           imgStep.2 ++ [FileEvent.productRowUpdate, FileEvent.deletedSizes] ++
             (match new_size with
              | some ns => [FileEvent.insertedSize ns]
              | none => []) ++ [FileEvent.committed])

/-- `delete_product` (products.py lines 425-446): existence check, DELETE of
the product's Size rows, DELETE of the product row, commit (the physical
image file is removed only after the commit and does not touch the DB). -/
def delete_product (db : DB) (product_id : Nat) : DB × Except HTTPErr String :=
  match db.products.find? (fun p => p.pId == product_id) with
  | none => (db, .error ⟨404, "Product not found."⟩)
  | some _ =>
      let db' := { db with
        sizes := db.sizes.filter (fun s => s.productId != product_id),
        products := db.products.filter (fun p => p.pId != product_id) }
      (db', .ok ("Product " ++ toString product_id ++ " and its assets deleted successfully."))

/-- `add_size_to_existing_product` (products.py lines 464-487).  Note the
source passes `product_id` to `_get_product_type_details`, which looks a
ProductType up by ProductTypeID — so the sizeRequired gate consults the
ProductType whose id happens to equal the product id, not the product's own
type; the embedding preserves this. -/
def add_size_to_existing_product (db : DB) (product_id : Nat) (SizeName : String) :
    DB × Except HTTPErr ProductSizeOut :=
  match get_product_type_details db product_id with
  | none => (db, .error ⟨400, "This product\x27s type does not require sizes."⟩)
  | some type_details =>
      if !type_details.size_required then
        (db, .error ⟨400, "This product\x27s type does not require sizes."⟩)
      else
        let trimmed_size_name := strStrip SizeName
        if trimmed_size_name = "" then
          (db, .error ⟨400, "SizeName cannot be empty."⟩)
        else if db.sizes.any
            (fun s => s.productId == product_id && s.sizeName == trimmed_size_name) then
          (db, .error ⟨409, "Size \x27" ++ trimmed_size_name
                         ++ "\x27 already exists for this product."⟩)
        else
          let db' := { db with
            sizes := db.sizes ++ [⟨db.nextSizeId, product_id, trimmed_size_name⟩],
            nextSizeId := db.nextSizeId + 1 }
          (db', .ok ⟨db.nextSizeId, product_id, trimmed_size_name⟩)

/-- `delete_specific_size_from_product_is` (products.py lines 490-502): DELETE
by (size id, product id) with an affected-row-count guard. -/
def delete_specific_size_from_product_is (db : DB) (product_id : Nat) (size_id : Nat) :
    DB × Except HTTPErr String :=
  let rowcount :=
    (db.sizes.filter (fun s => s.sId == size_id && s.productId == product_id)).length
  if rowcount == 0 then
    (db, .error ⟨404, "Size ID " ++ toString size_id ++ " not found for product ID "
                    ++ toString product_id ++ "."⟩)
  else
    let db' := { db with
      sizes := db.sizes.filter (fun s => !(s.sId == size_id && s.productId == product_id)) }
    (db', .ok ("Size ID " ++ toString size_id ++ " deleted for product ID "
                 ++ toString product_id ++ "."))

/-- The first EXISTS of the status CASE expression (products.py lines 145-151
and 224-230): some recipe of the product has an ingredient whose Status is
not "Available". -/
def anyUnavailableIngredient (db : DB) (pid : Nat) : Bool :=
  db.recipes.any (fun r =>
    r.productId == pid &&
    db.recipeIngredients.any (fun ri =>
      ri.recipeId == r.rId &&
      db.ingredients.any (fun i =>
        i.iId == ri.ingredientId && i.status != "Available")))

/-- The second EXISTS of the status CASE expression (products.py lines 153-159
and 232-238): some recipe of the product has a material whose Status is not
"Available". -/
def anyUnavailableMaterial (db : DB) (pid : Nat) : Bool :=
  db.recipes.any (fun r =>
    r.productId == pid &&
    db.recipeMaterials.any (fun rm =>
      rm.recipeId == r.rId &&
      db.materials.any (fun m =>
        m.mId == rm.materialId && m.status != "Available")))

/-- The CASE expression of the bulk query in `get_all_full_product_details`
(products.py lines 143-162): "Unavailable" when either EXISTS holds, else
"Available". -/
def statusExprAllProducts (db : DB) (pid : Nat) : String :=
  if anyUnavailableIngredient db pid || anyUnavailableMaterial db pid
  then "Unavailable" else "Available"

/-- The CASE expression of the single-product query in
`get_full_product_details` (products.py lines 222-241); textually the same
SQL as the bulk variant. -/
def statusExprSingleProduct (db : DB) (pid : Nat) : String :=
  if anyUnavailableIngredient db pid || anyUnavailableMaterial db pid
  then "Unavailable" else "Available"

/-- The size names stored for a product, in table order. -/
def sizeNamesOf (db : DB) (pid : Nat) : List String :=
  (db.sizes.filter (fun s => s.productId == pid)).map (fun s => s.sizeName)

/-- `get_all_full_product_details` (GET /is_products/products/details/,
products.py lines 126-202): inner join of Products with ProductType, the CASE
status per product, and the per-product size list (the sizes dict yields None
for a product with no Size rows).  The ORDER BY only permutes rows and is not
modelled. -/
def get_all_full_product_details (db : DB) : List ProductDetailWithStatusOut :=
  db.products.filterMap (fun p =>
    (db.productTypes.find? (fun t => t.ptId == p.typeId)).map (fun t =>
      { ProductTypeName := t.ptName
        ProductCategory := p.category
        ProductName := p.pName
        Description := p.description
        Price := p.price
        Sizes := (let l := sizeNamesOf db p.pId; if l.isEmpty then none else some l)
        Status := statusExprAllProducts db p.pId }))

/-- The joined row set of the single-product query of
`get_full_product_details` (products.py lines 215-248): Products joined with
ProductType, restricted to the given product id. -/
def full_detail_rows (db : DB) (product_id : Nat) : List ProductDetailWithStatusOut :=
  db.products.filterMap (fun p =>
    if p.pId == product_id then
      (db.productTypes.find? (fun t => t.ptId == p.typeId)).map (fun t =>
        ({ ProductTypeName := t.ptName
           ProductCategory := p.category
           ProductName := p.pName
           Description := p.description
           Price := p.price
           Sizes := (let l := sizeNamesOf db p.pId; if l.isEmpty then none else some l)
           Status := statusExprSingleProduct db p.pId } : ProductDetailWithStatusOut))
    else none)

/-- `get_full_product_details` (GET /is_products/products/(id)/details,
products.py lines 205-272): the joined row for the given product id (fetchone
takes the first), 404 when the join is empty, and `product_sizes or None`
for the size list. -/
def get_full_product_details (db : DB) (product_id : Nat) :
    Except HTTPErr ProductDetailWithStatusOut :=
  match (full_detail_rows db product_id).head? with
  | none => .error ⟨404, "Product with ID " ++ toString product_id ++ " not found."⟩
  | some d => .ok d

/-- One mutating operation of the service, with the request data and the
environment parameters its handler consumes. -/
inductive MutOp where
  | ptCreate (request : PTCreateRequest) (insertOk : Bool)
  | ptUpdate (product_type_id : Nat) (request : PTUpdateRequest)
      (raceRemoved : Bool) (sync : SyncOutcome)
  | ptDelete (product_type_id : Nat) (raceRemoved : Bool) (sync : SyncOutcome)
  | prodCreate (args : ProductCreateArgs)
  | prodUpdate (product_id : Nat) (args : ProductUpdateArgs)
  | prodDelete (product_id : Nat)
  | sizeAdd (product_id : Nat) (SizeName : String)
  | sizeRemove (product_id : Nat) (size_id : Nat)
deriving Repr, DecidableEq

/-- Dispatch a mutating operation: the committed database state afterwards,
and whether the handler raised an error. -/
def runMutation (db : DB) (op : MutOp) : DB × Bool :=
  match op with
  | .ptCreate request insertOk =>
      ((create_product_type db request insertOk).1,
       isErr (create_product_type db request insertOk).2)
  | .ptUpdate ptid request race sync =>
      ((update_product_type db ptid request race sync).1,
       isErr (update_product_type db ptid request race sync).2)
  | .ptDelete ptid race sync =>
      ((delete_product_type db ptid race sync).1,
       isErr (delete_product_type db ptid race sync).2)
  | .prodCreate args =>
      ((create_new_product db args).1, isErr (create_new_product db args).2)
  | .prodUpdate pid args =>
      ((update_product db pid args).1, isErr (update_product db pid args).2.1)
  | .prodDelete pid =>
      ((delete_product db pid).1, isErr (delete_product db pid).2)
  | .sizeAdd pid nm =>
      ((add_size_to_existing_product db pid nm).1,
       isErr (add_size_to_existing_product db pid nm).2)
  | .sizeRemove pid sid =>
      ((delete_specific_size_from_product_is db pid sid).1,
       isErr (delete_specific_size_from_product_is db pid sid).2)

/-- Spec-side predicate (from the spec's words): no two Product rows share the
same (name, category) pair. -/
def uniqueNameCategoryB : List ProductRow → Bool
  | [] => true
  | p :: rest =>
      rest.all (fun q => !(q.pName == p.pName && q.category == p.category)) &&
      uniqueNameCategoryB rest

/-- Spec-side predicate (from the spec's words): some ingredient or material
linked to the product via a recipe has a status other than "Available". -/
def linkedResourceUnavailable (db : DB) (pid : Nat) : Prop :=
  (∃ r ∈ db.recipes, r.productId = pid ∧
     ∃ ri ∈ db.recipeIngredients, ri.recipeId = r.rId ∧
       ∃ i ∈ db.ingredients, i.iId = ri.ingredientId ∧ i.status ≠ "Available") ∨
  (∃ r ∈ db.recipes, r.productId = pid ∧
     ∃ rm ∈ db.recipeMaterials, rm.recipeId = r.rId ∧
       ∃ m ∈ db.materials, m.mId = rm.materialId ∧ m.status ≠ "Available")

/-! Helper lemmas: every handler leaves the committed state unchanged when it
raises an error. -/

lemma create_product_type_err_state (db : DB) (request : PTCreateRequest) (insertOk : Bool)
    (h : isErr (create_product_type db request insertOk).2 = true) :
    (create_product_type db request insertOk).1 = db := by
  rcases hb : create_product_type_body db request insertOk with ⟨dbb, rb⟩
  unfold create_product_type at h ⊢
  rw [hb] at h ⊢
  cases rb with
  | error e => rfl
  | ok v => simp [isErr] at h

lemma update_product_type_err_state (db : DB) (ptid : Nat) (request : PTUpdateRequest)
    (race : Bool) (sync : SyncOutcome)
    (h : isErr (update_product_type db ptid request race sync).2 = true) :
    (update_product_type db ptid request race sync).1 = db := by
  unfold update_product_type at h ⊢
  cases h1 : (db.productTypes.find? (fun r => r.ptId == ptid)).isNone with
  | true => simp only [h1]; rfl
  | false =>
    simp only [h1, Bool.false_eq_true, if_false] at h ⊢
    cases h2 : db.productTypes.any
        (fun r => ciEq r.ptName request.productTypeName && r.ptId != ptid) with
    | true => simp only [h2]; rfl
    | false =>
      simp only [h2, Bool.false_eq_true, if_false] at h ⊢
      cases h3 : (if race then 0
          else (db.productTypes.filter (fun r => r.ptId == ptid)).length) == 0 with
      | true => simp only [h3]; rfl
      | false =>
        simp only [h3, Bool.false_eq_true, if_false] at h
        simp [isErr] at h

lemma delete_product_type_err_state (db : DB) (ptid : Nat)
    (race : Bool) (sync : SyncOutcome)
    (h : isErr (delete_product_type db ptid race sync).2 = true) :
    (delete_product_type db ptid race sync).1 = db := by
  unfold delete_product_type at h ⊢
  cases h1 : (db.productTypes.find? (fun r => r.ptId == ptid)).isNone with
  | true => simp only [h1]; rfl
  | false =>
    simp only [h1, Bool.false_eq_true, if_false] at h ⊢
    cases race with
    | true => rfl
    | false =>
      simp only [Bool.false_eq_true, if_false] at h ⊢
      cases h3 : db.products.any (fun p => p.typeId == ptid) with
      | true => simp only [h3]; rfl
      | false =>
        simp only [h3, Bool.false_eq_true, if_false] at h
        simp [isErr] at h

lemma create_new_product_err_state (db : DB) (args : ProductCreateArgs)
    (h : isErr (create_new_product db args).2 = true) :
    (create_new_product db args).1 = db := by
  unfold create_new_product at h ⊢
  cases h1 : db.products.any
      (fun p => p.pName == args.ProductName && p.category == args.ProductCategory) with
  | true => simp only [h1]; rfl
  | false =>
    simp only [h1, Bool.false_eq_true, if_false] at h ⊢
    revert h
    rcases get_product_type_details db args.ProductTypeID with _ | td
    · intro h; rfl
    · rcases validate_and_store_image args.freshName args.ProductImageFile with e | pth
      · intro h; rfl
      · intro h
        simp [isErr] at h

lemma update_product_err_state (db : DB) (pid : Nat) (args : ProductUpdateArgs)
    (h : isErr (update_product db pid args).2.1 = true) :
    (update_product db pid args).1 = db := by
  unfold update_product at h ⊢
  revert h
  generalize get_product_type_details db args.ProductTypeID = tdq
  rcases tdq with _ | td
  · intro h; rfl
  · dsimp only
    generalize db.products.find? (fun p => p.pId == pid) = cpq
    rcases cpq with _ | cp
    · intro h; rfl
    · intro h
      simp [isErr] at h

lemma delete_product_err_state (db : DB) (pid : Nat)
    (h : isErr (delete_product db pid).2 = true) :
    (delete_product db pid).1 = db := by
  unfold delete_product at h ⊢
  revert h
  generalize db.products.find? (fun p => p.pId == pid) = pq
  rcases pq with _ | p
  · intro h; rfl
  · intro h
    simp [isErr] at h

lemma add_size_err_state (db : DB) (pid : Nat) (nm : String)
    (h : isErr (add_size_to_existing_product db pid nm).2 = true) :
    (add_size_to_existing_product db pid nm).1 = db := by
  unfold add_size_to_existing_product at h ⊢
  revert h
  rcases get_product_type_details db pid with _ | td
  · intro h; rfl
  · intro h
    cases h2 : !td.size_required with
    | true => simp only [h2]; rfl
    | false =>
      simp only [h2, Bool.false_eq_true, if_false] at h ⊢
      by_cases h3 : strStrip nm = ""
      · rw [if_pos h3]
      · rw [if_neg h3] at h ⊢
        cases h4 : db.sizes.any
            (fun s => s.productId == pid && s.sizeName == strStrip nm) with
        | true => simp only [h4]; rfl
        | false =>
          simp only [h4, Bool.false_eq_true, if_false] at h
          simp [isErr] at h

lemma delete_size_err_state (db : DB) (pid : Nat) (sid : Nat)
    (h : isErr (delete_specific_size_from_product_is db pid sid).2 = true) :
    (delete_specific_size_from_product_is db pid sid).1 = db := by
  unfold delete_specific_size_from_product_is at h ⊢
  cases h1 : ((db.sizes.filter
      (fun s => s.sId == sid && s.productId == pid)).length) == 0 with
  | true => simp only [h1]; rfl
  | false =>
    simp only [h1, Bool.false_eq_true, if_false] at h
    simp [isErr] at h

/-- C5: for every mutating operation (create/update/delete ProductType,
create/update/delete Product, add/delete Size) and every database state, if
the handler raises an error then the committed database state observed
afterwards equals the state before the operation: every failure path returns
(explicit rollback in ProductType.py, discard of the uncommitted transaction
in products.py) without publishing any write. -/
theorem claim_C5_rollback_on_error (db : DB) (op : MutOp)
    (h : (runMutation db op).2 = true) : (runMutation db op).1 = db := by
  cases op with
  | ptCreate request insertOk => exact create_product_type_err_state db request insertOk h
  | ptUpdate ptid request race sync => exact update_product_type_err_state db ptid request race sync h
  | ptDelete ptid race sync => exact delete_product_type_err_state db ptid race sync h
  | prodCreate args => exact create_new_product_err_state db args h
  | prodUpdate pid args => exact update_product_err_state db pid args h
  | prodDelete pid => exact delete_product_err_state db pid h
  | sizeAdd pid nm => exact add_size_err_state db pid nm h
  | sizeRemove pid sid => exact delete_size_err_state db pid sid h

/-- The empty database. -/
def emptyDB : DB := ⟨[], [], [], [], [], [], [], [], 1, 1, 1⟩

/-- Witness for C5: deleting a product that does not exist fails, and the
state after the failed operation is the initial state. -/
theorem claim_C5_witness :
    (runMutation emptyDB (MutOp.prodDelete 1)).2 = true ∧
    (runMutation emptyDB (MutOp.prodDelete 1)).1 = emptyDB :=
  ⟨by decide, claim_C5_rollback_on_error emptyDB (MutOp.prodDelete 1) (by decide)⟩

/-- C10: the URL-construction helper returns
base ++ "/static_files" ++ path exactly when the stored path is non-null and
begins with "/product_images", and null otherwise (a None path, and any path
not beginning with the logical prefix — the empty path in particular, which is
falsy in the source — map to None). -/
theorem claim_C10_image_url (base : String) (s : String) :
    construct_full_url_for_is_response base none = none ∧
    construct_full_url_for_is_response base (some s) =
      (if strStartsWith s "/product_images" then some (base ++ "/static_files" ++ s)
       else none) := by
  constructor
  · rfl
  · unfold construct_full_url_for_is_response
    by_cases hs : s = ""
    · subst hs
      rfl
    · have hd : (decide (s ≠ "")) = true := decide_eq_true hs
      simp only [imageDbPathRoot, imageUrlStaticRoot, hd, Bool.true_and]

/-- Concrete state for C1: ProductType 1 requires sizes, ProductType 2 does
not, and product 1 is of type 2. -/
def c1db : DB :=
  ⟨[⟨1, "SizedType", 1⟩, ⟨2, "NoSizeType", 0⟩],
   [⟨1, "Latte", 2, "Coffee", none, 120, none⟩],
   [], [], [], [], [], [], 3, 2, 1⟩

/-- C1 (code bug): product 1's own ProductType is type 2, whose sizeRequired
is false, so the claim requires the add-size operation to fail with BadRequest
and insert nothing; but the source passes the product id to
`_get_product_type_details`, so it consults ProductType 1 (sizeRequired =
true) instead, succeeds, and inserts the Size row. -/
theorem claim_C1_code_bug :
    (c1db.products.find? (fun p => p.pId == 1)).map (fun p => p.typeId) = some 2 ∧
    get_product_type_details c1db 2 = some ⟨"NoSizeType", false⟩ ∧
    (add_size_to_existing_product c1db 1 "Large").2 = .ok ⟨1, 1, "Large"⟩ ∧
    (add_size_to_existing_product c1db 1 "Large").1.sizes = [⟨1, 1, "Large"⟩] := by
  refine ⟨rfl, rfl, rfl, rfl⟩

lemma statusCond_iff (db : DB) (pid : Nat) :
    (anyUnavailableIngredient db pid || anyUnavailableMaterial db pid) = true ↔
      linkedResourceUnavailable db pid := by
  simp [anyUnavailableIngredient, anyUnavailableMaterial, linkedResourceUnavailable,
        List.any_eq_true, Bool.and_eq_true, beq_iff_eq, bne_iff_ne]

/-- C9: the Status of the single-product details operation coincides with the
Status the bulk details operation computes for the same product, both are
"Unavailable" exactly when some ingredient or material linked via the
product's recipes has a status other than "Available", and "Available"
otherwise; the Status fields of the rows the two endpoints return are exactly
these expressions. -/
theorem claim_C9_status_consistency (db : DB) (pid : Nat) :
    statusExprSingleProduct db pid = statusExprAllProducts db pid ∧
    (statusExprSingleProduct db pid = "Unavailable" ↔ linkedResourceUnavailable db pid) ∧
    (¬ linkedResourceUnavailable db pid → statusExprSingleProduct db pid = "Available") ∧
    (∀ d, get_full_product_details db pid = Except.ok d →
       d.Status = statusExprSingleProduct db pid) ∧
    (∀ d, d ∈ get_all_full_product_details db →
       ∃ p, p ∈ db.products ∧ d.Status = statusExprAllProducts db p.pId) := by
  refine ⟨rfl, ?_, ?_, ?_, ?_⟩
  · unfold statusExprSingleProduct
    cases hc : anyUnavailableIngredient db pid || anyUnavailableMaterial db pid with
    | true =>
        simp only [hc, if_true]
        constructor
        · intro _
          exact (statusCond_iff db pid).mp hc
        · intro _
          trivial
    | false =>
        simp only [hc, Bool.false_eq_true, if_false]
        constructor
        · intro hcontra
          exact absurd hcontra (by decide)
        · intro hl
          exact absurd ((statusCond_iff db pid).mpr hl) (by simp [hc])
  · intro hnl
    unfold statusExprSingleProduct
    cases hc : anyUnavailableIngredient db pid || anyUnavailableMaterial db pid with
    | true => exact absurd ((statusCond_iff db pid).mp hc) hnl
    | false => simp only [Bool.false_eq_true, if_false]
  · intro d hok
    unfold get_full_product_details at hok
    cases hhead : (full_detail_rows db pid).head? with
    | none => rw [hhead] at hok; simp at hok
    | some d0 =>
        rw [hhead] at hok
        simp only [Except.ok.injEq] at hok
        subst hok
        have hmem : d0 ∈ full_detail_rows db pid := by
          cases hl : full_detail_rows db pid with
          | nil => rw [hl] at hhead; simp at hhead
          | cons a t =>
              rw [hl] at hhead
              simp only [List.head?_cons, Option.some.injEq] at hhead
              rw [← hhead]
              exact List.mem_cons_self a t
        unfold full_detail_rows at hmem
        rw [List.mem_filterMap] at hmem
        obtain ⟨p, hp, hf⟩ := hmem
        cases hpid : p.pId == pid with
        | true =>
            rw [hpid] at hf
            simp only [if_true] at hf
            rw [Option.map_eq_some'] at hf
            obtain ⟨t, _, ht⟩ := hf
            have hpe : p.pId = pid := by
              simpa using hpid
            rw [← ht, ← hpe]
        | false =>
            rw [hpid] at hf
            simp at hf
  · intro d hmem
    unfold get_all_full_product_details at hmem
    rw [List.mem_filterMap] at hmem
    obtain ⟨p, hp, hf⟩ := hmem
    rw [Option.map_eq_some'] at hf
    obtain ⟨t, _, ht⟩ := hf
    exact ⟨p, hp, by rw [← ht]⟩

/-- Concrete state for the C9 witness: product 1's recipe uses ingredient 1,
which is OutOfStock. -/
def c9db : DB :=
  ⟨[⟨1, "Drink", 1⟩], [⟨1, "Latte", 1, "Coffee", none, 120, none⟩], [],
   [⟨1, 1⟩], [⟨1, 1⟩], [⟨1, "OutOfStock"⟩], [], [], 2, 2, 1⟩

/-- Witness for C9: with an OutOfStock linked ingredient, both status
expressions report "Unavailable" for product 1. -/
theorem claim_C9_witness :
    statusExprSingleProduct c9db 1 = "Unavailable" ∧
    statusExprSingleProduct c9db 1 = statusExprAllProducts c9db 1 :=
  ⟨((claim_C9_status_consistency c9db 1).2.1).mpr ((statusCond_iff c9db 1).mp (by decide)),
   (claim_C9_status_consistency c9db 1).1⟩

lemma filter_ne_filter_eq_nil (l : List SizeRow) (pid : Nat) :
    (l.filter (fun s => s.productId != pid)).filter (fun s => s.productId == pid) = [] := by
  induction l with
  | nil => rfl
  | cons a t ih =>
      cases hap : a.productId == pid with
      | true =>
          have hne : (a.productId != pid) = false := by simp [bne, hap]
          simp [List.filter_cons, hne, ih]
      | false =>
          have hne : (a.productId != pid) = true := by simp [bne, hap]
          simp [List.filter_cons, hne, hap, ih]

lemma truthyTrimmed_spec (o : Option String) :
    (match truthyTrimmed o with
     | some ns => [ns]
     | none => ([] : List String)) =
    (match o with
     | none => ([] : List String)
     | some s => if strStrip s = "" then [] else [strStrip s]) := by
  cases o with
  | none => rfl
  | some s =>
      by_cases h1 : s = ""
      · subst h1; rfl
      · simp only [truthyTrimmed, if_neg h1]
        by_cases h2 : strStrip s = ""
        · rw [if_pos h2, if_pos h2]
        · rw [if_neg h2, if_neg h2]

/-- C8: whenever a product update succeeds, the product's stored size names
afterwards are exactly the one-element list holding the trimmed ProductSize
field when that field is non-empty after trimming, and the empty list when the
field is absent, empty, or whitespace-only — independently of the sizes stored
before. -/
theorem claim_C8_sizes_after_update (db : DB) (pid : Nat) (args : ProductUpdateArgs)
    (hok : isErr (update_product db pid args).2.1 = false) :
    sizeNamesOf (update_product db pid args).1 pid =
      (match args.ProductSize with
       | none => []
       | some s => if strStrip s = "" then [] else [strStrip s]) := by
  rw [← truthyTrimmed_spec args.ProductSize]
  unfold update_product at hok ⊢
  revert hok
  generalize get_product_type_details db args.ProductTypeID = tdq
  rcases tdq with _ | td
  · intro hok; simp [isErr] at hok
  · dsimp only
    generalize db.products.find? (fun p => p.pId == pid) = cpq
    rcases cpq with _ | cp
    · intro hok; simp [isErr] at hok
    · intro _
      simp only [sizeNamesOf]
      cases hts : truthyTrimmed args.ProductSize with
      | some ns =>
          simp [hts, List.filter_append, filter_ne_filter_eq_nil]
      | none =>
          simp [hts, List.filter_append, filter_ne_filter_eq_nil]

/-- Concrete state for the C8 witness: product 1 has two stored sizes before
the update. -/
def c8db : DB :=
  ⟨[⟨1, "Drink", 1⟩], [⟨1, "Latte", 1, "Coffee", none, 120, none⟩],
   [⟨1, 1, "Old1"⟩, ⟨2, 1, "Old2"⟩], [], [], [], [], [], 2, 2, 3⟩

/-- Update request for the C8 witness: ProductSize is " Grande " (non-empty
after trimming). -/
def c8args : ProductUpdateArgs :=
  ⟨"Latte", 1, "Coffee", none, 120, some " Grande ", none, "u8", false⟩

/-- Witness for C8: the update succeeds and replaces both previously stored
sizes with exactly ["Grande"]. -/
theorem claim_C8_witness :
    isErr (update_product c8db 1 c8args).2.1 = false ∧
    sizeNamesOf (update_product c8db 1 c8args).1 1 = ["Grande"] := by
  constructor
  · decide
  · have h := claim_C8_sizes_after_update c8db 1 c8args (by decide)
    rw [h]
    decide

/-- The index of the first event satisfying a predicate in an event trace. -/
def findEventIdx (p : FileEvent → Bool) : List FileEvent → Option Nat
  | [] => none
  | e :: es => if p e then some 0 else (findEventIdx p es).map (· + 1)

/-- Concrete state for C2: product 1 currently references the stored image
"/product_images/old.png", which exists on disk. -/
def c2db : DB :=
  ⟨[⟨1, "Drink", 1⟩],
   [⟨1, "Latte", 1, "Coffee", none, 120, some "/product_images/old.png"⟩],
   [], [], [], [], [], [], 2, 2, 1⟩

/-- Update request for C2: a new image file is supplied. -/
def c2args : ProductUpdateArgs :=
  ⟨"Latte", 1, "Coffee", none, 130, none, some ⟨"new.png", "image/png"⟩, "u1", true⟩

/-- Counterexample for C2: in this successful update the removal of the old
physical file happens at trace position 1, strictly before the Products row
UPDATE at position 2 — so the old file is removed before the row update runs,
contradicting the claim that it is deleted only after the row update
succeeded. -/
theorem claim_C2_counterexample :
    isErr (update_product c2db 1 c2args).2.1 = false ∧
    findEventIdx isRemovedOldImage (update_product c2db 1 c2args).2.2 = some 1 ∧
    findEventIdx isProductRowUpdate (update_product c2db 1 c2args).2.2 = some 2 := by
  refine ⟨by decide, by decide, by decide⟩

/-- C2 as amended: for every product update that supplies a new image file
while the product row references an old image file that exists on disk, the
old physical file is removed immediately after the new file is written and
strictly before the Products row UPDATE runs (positions 1 and 2 of the event
trace). -/
theorem claim_C2_amended (db : DB) (pid : Nat) (args : ProductUpdateArgs)
    (himg : args.ProductImageFile.isSome = true)
    (htype : (get_product_type_details db args.ProductTypeID).isSome = true)
    (hcur : ∃ cp, db.products.find? (fun p => p.pId == pid) = some cp ∧
              cp.image.isSome = true)
    (hold : args.oldFileExists = true) :
    findEventIdx isRemovedOldImage (update_product db pid args).2.2 = some 1 ∧
    findEventIdx isProductRowUpdate (update_product db pid args).2.2 = some 2 := by
  obtain ⟨cp, hfind, hcpi⟩ := hcur
  obtain ⟨f, hf⟩ := Option.isSome_iff_exists.mp himg
  obtain ⟨td, htd⟩ := Option.isSome_iff_exists.mp htype
  obtain ⟨old, holdp⟩ := Option.isSome_iff_exists.mp hcpi
  unfold update_product
  rw [htd, hfind]
  dsimp only
  unfold image_phase_for_update
  rw [hf, holdp, hold]
  dsimp only
  cases hts : truthyTrimmed args.ProductSize with
  | some ns =>
      simp [hts, findEventIdx, isRemovedOldImage, isProductRowUpdate]
  | none =>
      simp [hts, findEventIdx, isRemovedOldImage, isProductRowUpdate]

/-- Witness for the amended C2 at a concrete input. -/
theorem claim_C2_witness :
    findEventIdx isRemovedOldImage (update_product c2db 1 c2args).2.2 = some 1 ∧
    findEventIdx isProductRowUpdate (update_product c2db 1 c2args).2.2 = some 2 :=
  claim_C2_amended c2db 1 c2args (by decide) (by decide)
    ⟨⟨1, "Latte", 1, "Coffee", none, 120, some "/product_images/old.png"⟩,
     by decide, by decide⟩ (by decide)

/-- Concrete state for C3: two distinct products in the same category, and a
ProductType for them; the (name, category) pairs are unique. -/
def c3db : DB :=
  ⟨[⟨1, "Drink", 1⟩],
   [⟨1, "Latte", 1, "Coffee", none, 120, none⟩,
    ⟨2, "Mocha", 1, "Coffee", none, 130, none⟩],
   [], [], [], [], [], [], 2, 3, 1⟩

/-- Update request for C3: rename product 2 to "Latte" in category "Coffee",
the pair product 1 already has. -/
def c3args : ProductUpdateArgs :=
  ⟨"Latte", 1, "Coffee", none, 130, none, none, "u3", false⟩

/-- Counterexample for C3: starting from a state satisfying (name, category)
uniqueness, the product update succeeds and leaves two rows with the pair
("Latte", "Coffee") — `update_product` performs no uniqueness check, so update
does not preserve the invariant. -/
theorem claim_C3_counterexample :
    uniqueNameCategoryB c3db.products = true ∧
    isErr (update_product c3db 2 c3args).2.1 = false ∧
    uniqueNameCategoryB (update_product c3db 2 c3args).1.products = false := by
  refine ⟨by decide, by decide, by decide⟩

lemma uniqueNameCategoryB_append (l : List ProductRow) (row : ProductRow)
    (hu : uniqueNameCategoryB l = true)
    (hnew : ∀ q ∈ l, ¬(q.pName = row.pName ∧ q.category = row.category)) :
    uniqueNameCategoryB (l ++ [row]) = true := by
  induction l with
  | nil => simp [uniqueNameCategoryB]
  | cons p rest ih =>
      simp only [uniqueNameCategoryB, Bool.and_eq_true, List.all_eq_true] at hu
      obtain ⟨hall, hrest⟩ := hu
      have hx : uniqueNameCategoryB (rest ++ [row]) = true :=
        ih hrest (fun q hq => hnew q (List.mem_cons_of_mem p hq))
      simp only [List.cons_append, uniqueNameCategoryB, Bool.and_eq_true,
                 List.all_eq_true]
      refine ⟨?_, hx⟩
      intro q hq
      rcases List.mem_append.mp hq with hq | hq
      · exact hall q hq
      · have hqr : q = row := by simpa using hq
        rw [hqr]
        have hpn := hnew p (List.mem_cons_self p rest)
        simp only [Bool.not_eq_true', Bool.and_eq_false_iff, beq_eq_false_iff_ne, ne_eq]
        by_cases h1 : row.pName = p.pName
        · right
          intro h2
          exact hpn ⟨h1.symm, h2.symm⟩
        · left
          exact h1

/-- C3 as amended: product create preserves (name, category) uniqueness — a
request whose pair is already taken is rejected with 409 Conflict, and a
successful create appends a row with a fresh pair; product update, however,
performs no such check and can break the invariant (see the counterexample). -/
theorem claim_C3_amended (db : DB) (args : ProductCreateArgs)
    (hu : uniqueNameCategoryB db.products = true) :
    ((∃ p ∈ db.products, p.pName = args.ProductName ∧ p.category = args.ProductCategory) →
       (create_new_product db args).2 =
         .error ⟨409, "Product \x27" ++ args.ProductName ++ "\x27 in \x27"
                   ++ args.ProductCategory ++ "\x27 already exists."⟩) ∧
    uniqueNameCategoryB (create_new_product db args).1.products = true := by
  constructor
  · rintro ⟨p, hp, hn, hc⟩
    have hany : (db.products.any
        (fun p => p.pName == args.ProductName && p.category == args.ProductCategory)) = true := by
      rw [List.any_eq_true]
      exact ⟨p, hp, by simp [hn, hc]⟩
    unfold create_new_product
    rw [if_pos hany]
  · unfold create_new_product
    cases hany : db.products.any
        (fun p => p.pName == args.ProductName && p.category == args.ProductCategory) with
    | true => exact hu
    | false =>
        rw [if_neg (by simp [hany])]
        cases htd : get_product_type_details db args.ProductTypeID with
        | none => exact hu
        | some td =>
            try rw [htd]
            cases him : validate_and_store_image args.freshName args.ProductImageFile with
            | error e => exact hu
            | ok ipath =>
                try rw [him]
                have hnone : ∀ q ∈ db.products,
                    ¬(q.pName = args.ProductName ∧ q.category = args.ProductCategory) := by
                  rintro q hq ⟨h1, h2⟩
                  have hq2 : (db.products.any
                      (fun p => p.pName == args.ProductName &&
                        p.category == args.ProductCategory)) = true := by
                    rw [List.any_eq_true]
                    exact ⟨q, hq, by simp [h1, h2]⟩
                  exact absurd hq2 (by simp [hany])
                exact uniqueNameCategoryB_append db.products _ hu hnone

/-- Create request for the C3 witness: the pair ("Latte", "Coffee") already
exists in `c3db`. -/
def c3cargs : ProductCreateArgs :=
  ⟨"Latte", 1, "Coffee", none, 100, none, none, "u3c"⟩

/-- Witness for the amended C3: the duplicate create is rejected with 409 and
the state still satisfies the invariant. -/
theorem claim_C3_witness :
    (create_new_product c3db c3cargs).2 =
      .error ⟨409, "Product \x27Latte\x27 in \x27Coffee\x27 already exists."⟩ ∧
    uniqueNameCategoryB (create_new_product c3db c3cargs).1.products = true :=
  ⟨(claim_C3_amended c3db c3cargs (by decide)).1
     ⟨⟨1, "Latte", 1, "Coffee", none, 120, none⟩, by decide, rfl, rfl⟩,
   (claim_C3_amended c3db c3cargs (by decide)).2⟩

/-- Concrete state for C6: a single ProductType named "Coffee". -/
def c6db : DB := ⟨[⟨1, "Coffee", 1⟩], [], [], [], [], [], [], [], 2, 1, 1⟩

/-- Counterexample for C6: creating "COFFEE" (differing only in case from the
existing "Coffee") does fail before the insert and changes nothing, but the
failure is an HTTP 500 wrapping the duplicate-name message — the handler's
generic `except Exception` catches the HTTPException(400) and re-raises it as
500 "Failed to save to DB: ..." — not a 409 Conflict. -/
theorem claim_C6_counterexample :
    ciEq "Coffee" "COFFEE" = true ∧
    create_product_type c6db ⟨"COFFEE", 0⟩ true =
      (c6db, .error ⟨500, "Failed to save to DB: 400: Product type name already exists."⟩) := by
  refine ⟨by decide, by rfl⟩

/-- C6 as amended: for every ProductType create whose name matches an existing
name case-insensitively, the collision check (which runs before the insert)
fails the request and nothing is inserted; the surfaced error is the 500
wrapping of the inner 400 duplicate-name HTTPException, not 409 Conflict. -/
theorem claim_C6_amended (db : DB) (requ : PTCreateRequest) (insertOk : Bool)
    (hdup : ∃ pt ∈ db.productTypes, ciEq pt.ptName requ.productTypeName = true) :
    create_product_type db requ insertOk =
      (db, .error ⟨500, "Failed to save to DB: 400: Product type name already exists."⟩) := by
  obtain ⟨pt, hpt, hci⟩ := hdup
  have hany : (db.productTypes.any (fun r => ciEq r.ptName requ.productTypeName)) = true := by
    rw [List.any_eq_true]
    exact ⟨pt, hpt, hci⟩
  unfold create_product_type create_product_type_body
  rw [if_pos hany]
  rfl

/-- Witness for the amended C6 at a concrete input ("coffee" against the
stored "Coffee"). -/
theorem claim_C6_witness :
    create_product_type c6db ⟨"coffee", 1⟩ true =
      (c6db, .error ⟨500, "Failed to save to DB: 400: Product type name already exists."⟩) :=
  claim_C6_amended c6db ⟨"coffee", 1⟩ true ⟨⟨1, "Coffee", 1⟩, by decide, by decide⟩

/-- Concrete state for C7: two ProductTypes, "Coffee" (id 1) and "Tea" (id 2). -/
def c7db : DB :=
  ⟨[⟨1, "Coffee", 1⟩, ⟨2, "Tea", 1⟩], [], [], [], [], [], [], [], 3, 1, 1⟩

/-- Counterexample for C7: renaming type 2 to "coffee" collides
case-insensitively with type 1 and is rejected — but with status 400, not the
claimed 409 Conflict. -/
theorem claim_C7_counterexample :
    ciEq "Coffee" "coffee" = true ∧
    (update_product_type c7db 2 ⟨"coffee", 1⟩ false SyncOutcome.ok).2 =
      .error ⟨400, "Product type name already exists for another type."⟩ := by
  refine ⟨by decide, by rfl⟩

/-- C7 as amended: for every ProductType update, (a) a missing id fails with
404 NotFound; (b) a case-insensitive name collision with a different id fails
with 400 (not 409 Conflict); (c) updating a type to its own unchanged name
(no other id carrying a case-insensitively equal name) succeeds; (d) when the
UPDATE affects zero rows although the existence check passed (a concurrent
deletion), the operation fails with 404 NotFound. -/
theorem claim_C7_amended (db : DB) (ptid : Nat) (requ : PTUpdateRequest) (s : SyncOutcome) :
    ((db.productTypes.find? (fun r => r.ptId == ptid)).isNone = true →
       ∀ race, (update_product_type db ptid requ race s).2 =
         .error ⟨404, "Product type not found in primary service (8001) for update."⟩) ∧
    ((db.productTypes.find? (fun r => r.ptId == ptid)).isSome = true →
     (db.productTypes.any
        (fun r => ciEq r.ptName requ.productTypeName && r.ptId != ptid)) = true →
       ∀ race, (update_product_type db ptid requ race s).2 =
         .error ⟨400, "Product type name already exists for another type."⟩) ∧
    (∀ pt, db.productTypes.find? (fun r => r.ptId == ptid) = some pt →
       requ.productTypeName = pt.ptName →
       (db.productTypes.any
          (fun r => ciEq r.ptName requ.productTypeName && r.ptId != ptid)) = false →
       isErr (update_product_type db ptid requ false s).2 = false) ∧
    ((db.productTypes.find? (fun r => r.ptId == ptid)).isSome = true →
     (db.productTypes.any
        (fun r => ciEq r.ptName requ.productTypeName && r.ptId != ptid)) = false →
       (update_product_type db ptid requ true s).2 =
         .error ⟨404, "Product type not found during update execution or no changes were made."⟩) := by
  refine ⟨?_, ?_, ?_, ?_⟩
  · intro h race
    unfold update_product_type
    rw [if_pos h]
  · intro hs hcoll race
    unfold update_product_type
    have hnn : ¬((db.productTypes.find? (fun r => r.ptId == ptid)).isNone = true) := by
      intro hn
      rw [Option.isNone_iff_eq_none] at hn
      rw [hn] at hs
      simp at hs
    rw [if_neg hnn]
    rw [if_pos hcoll]
  · intro pt hfind hname hcoll
    unfold update_product_type
    rw [if_neg (by simp [Option.isNone_iff_eq_none, hfind])]
    rw [if_neg (by simp [hcoll])]
    have hmem : pt ∈ db.productTypes := List.mem_of_find?_eq_some hfind
    have hpred := List.find?_some hfind
    have hfil : pt ∈ db.productTypes.filter (fun r => r.ptId == ptid) :=
      List.mem_filter.mpr ⟨hmem, hpred⟩
    have hlen : (db.productTypes.filter (fun r => r.ptId == ptid)).length ≠ 0 := by
      intro hzero
      rw [List.length_eq_zero] at hzero
      rw [hzero] at hfil
      simp at hfil
    rw [if_neg (by simp [hlen])]
    rfl
  · intro hs hcoll
    unfold update_product_type
    have hnn : ¬((db.productTypes.find? (fun r => r.ptId == ptid)).isNone = true) := by
      intro hn
      rw [Option.isNone_iff_eq_none] at hn
      rw [hn] at hs
      simp at hs
    rw [if_neg hnn]
    rw [if_neg (by simp [hcoll])]
    rw [if_pos (by rfl)]

/-- Witness for the amended C7: all four behaviours at concrete inputs over
`c7db`. -/
theorem claim_C7_witness :
    ((update_product_type c7db 5 ⟨"Juice", 1⟩ false SyncOutcome.ok).2 =
       .error ⟨404, "Product type not found in primary service (8001) for update."⟩) ∧
    ((update_product_type c7db 2 ⟨"COFFEE", 1⟩ false SyncOutcome.ok).2 =
       .error ⟨400, "Product type name already exists for another type."⟩) ∧
    (isErr (update_product_type c7db 1 ⟨"Coffee", 1⟩ false SyncOutcome.ok).2 = false) ∧
    ((update_product_type c7db 1 ⟨"Coffee", 1⟩ true SyncOutcome.ok).2 =
       .error ⟨404, "Product type not found during update execution or no changes were made."⟩) :=
  ⟨(claim_C7_amended c7db 5 ⟨"Juice", 1⟩ SyncOutcome.ok).1 (by decide) false,
   (claim_C7_amended c7db 2 ⟨"COFFEE", 1⟩ SyncOutcome.ok).2.1 (by decide) (by decide) false,
   (claim_C7_amended c7db 1 ⟨"Coffee", 1⟩ SyncOutcome.ok).2.2.1 ⟨1, "Coffee", 1⟩
     (by decide) rfl (by decide),
   (claim_C7_amended c7db 1 ⟨"Coffee", 1⟩ SyncOutcome.ok).2.2.2 (by decide) (by decide)⟩

lemma update_product_type_sync_indep (db : DB) (ptid : Nat) (requ : PTUpdateRequest)
    (race : Bool) (s : SyncOutcome) :
    (update_product_type db ptid requ race s).1 =
      (update_product_type db ptid requ race SyncOutcome.ok).1 ∧
    isErr (update_product_type db ptid requ race s).2 =
      isErr (update_product_type db ptid requ race SyncOutcome.ok).2 := by
  unfold update_product_type
  cases h1 : (db.productTypes.find? (fun r => r.ptId == ptid)).isNone with
  | true => exact ⟨by trivial, by trivial⟩
  | false =>
      simp only [h1, Bool.false_eq_true, if_false]
      cases h2 : db.productTypes.any
          (fun r => ciEq r.ptName requ.productTypeName && r.ptId != ptid) with
      | true => simp only [h2]; exact ⟨by trivial, by trivial⟩
      | false =>
          simp only [h2, Bool.false_eq_true, if_false]
          cases h3 : (if race then 0
              else (db.productTypes.filter (fun r => r.ptId == ptid)).length) == 0 with
          | true => simp only [h3]; exact ⟨by trivial, by trivial⟩
          | false => simp only [h3, Bool.false_eq_true, if_false]; exact ⟨by trivial, by trivial⟩

lemma update_product_type_ok_message (db : DB) (ptid : Nat) (requ : PTUpdateRequest)
    (race : Bool) (s : SyncOutcome)
    (h : isErr (update_product_type db ptid requ race s).2 = false) :
    (update_product_type db ptid requ race s).2 =
      .ok ⟨strStrip ("Product type updated successfully in primary service (8001). "
                       ++ syncMsgUpdate ptid s)⟩ := by
  unfold update_product_type at h ⊢
  cases h1 : (db.productTypes.find? (fun r => r.ptId == ptid)).isNone with
  | true => simp only [h1] at h; simp [isErr] at h
  | false =>
      simp only [h1, Bool.false_eq_true, if_false] at h ⊢
      cases h2 : db.productTypes.any
          (fun r => ciEq r.ptName requ.productTypeName && r.ptId != ptid) with
      | true => simp only [h2] at h; simp [isErr] at h
      | false =>
          simp only [h2, Bool.false_eq_true, if_false] at h ⊢
          cases h3 : (if race then 0
              else (db.productTypes.filter (fun r => r.ptId == ptid)).length) == 0 with
          | true => simp only [h3] at h; simp [isErr] at h
          | false => simp only [h3, Bool.false_eq_true, if_false]

lemma delete_product_type_sync_indep (db : DB) (ptid : Nat)
    (race : Bool) (s : SyncOutcome) :
    (delete_product_type db ptid race s).1 =
      (delete_product_type db ptid race SyncOutcome.ok).1 ∧
    isErr (delete_product_type db ptid race s).2 =
      isErr (delete_product_type db ptid race SyncOutcome.ok).2 := by
  unfold delete_product_type
  cases h1 : (db.productTypes.find? (fun r => r.ptId == ptid)).isNone with
  | true => exact ⟨by trivial, by trivial⟩
  | false =>
      simp only [h1, Bool.false_eq_true, if_false]
      cases race with
      | true => exact ⟨by trivial, by trivial⟩
      | false =>
          simp only [Bool.false_eq_true, if_false]
          cases h3 : db.products.any (fun p => p.typeId == ptid) with
          | true => simp only [h3]; exact ⟨by trivial, by trivial⟩
          | false => simp only [h3, Bool.false_eq_true, if_false]; exact ⟨by trivial, by trivial⟩

lemma delete_product_type_ok_message (db : DB) (ptid : Nat)
    (race : Bool) (s : SyncOutcome)
    (h : isErr (delete_product_type db ptid race s).2 = false) :
    (delete_product_type db ptid race s).2 =
      .ok ⟨strStrip ("Product type deleted successfully from primary service (8001). "
                       ++ syncMsgDelete ptid s)⟩ := by
  unfold delete_product_type at h ⊢
  cases h1 : (db.productTypes.find? (fun r => r.ptId == ptid)).isNone with
  | true => simp only [h1] at h; simp [isErr] at h
  | false =>
      simp only [h1, Bool.false_eq_true, if_false] at h ⊢
      cases race with
      | true => simp [isErr] at h
      | false =>
          simp only [Bool.false_eq_true, if_false] at h ⊢
          cases h3 : db.products.any (fun p => p.typeId == ptid) with
          | true => simp only [h3] at h; simp [isErr] at h
          | false => simp only [h3, Bool.false_eq_true, if_false]

/-- C4: for ProductType update and delete, the committed local state and the
success/failure of the operation do not depend on the outcome of the
subsequent peer-sync HTTP call, and every success response's message is the
local success line followed by the formatted description of the sync outcome
(in particular of its failure) — a failing sync never fails the request and
never changes the committed state. -/
theorem claim_C4_best_effort_sync (db : DB) (ptid : Nat) (requ : PTUpdateRequest)
    (race : Bool) (s s' : SyncOutcome) :
    ((update_product_type db ptid requ race s).1 =
       (update_product_type db ptid requ race s').1) ∧
    (isErr (update_product_type db ptid requ race s).2 =
       isErr (update_product_type db ptid requ race s').2) ∧
    (isErr (update_product_type db ptid requ race s).2 = false →
       (update_product_type db ptid requ race s).2 =
         .ok ⟨strStrip ("Product type updated successfully in primary service (8001). "
                          ++ syncMsgUpdate ptid s)⟩) ∧
    ((delete_product_type db ptid race s).1 = (delete_product_type db ptid race s').1) ∧
    (isErr (delete_product_type db ptid race s).2 =
       isErr (delete_product_type db ptid race s').2) ∧
    (isErr (delete_product_type db ptid race s).2 = false →
       (delete_product_type db ptid race s).2 =
         .ok ⟨strStrip ("Product type deleted successfully from primary service (8001). "
                          ++ syncMsgDelete ptid s)⟩) := by
  refine ⟨?_, ?_, update_product_type_ok_message db ptid requ race s, ?_, ?_,
          delete_product_type_ok_message db ptid race s⟩
  · rw [(update_product_type_sync_indep db ptid requ race s).1,
        (update_product_type_sync_indep db ptid requ race s').1]
  · rw [(update_product_type_sync_indep db ptid requ race s).2,
        (update_product_type_sync_indep db ptid requ race s').2]
  · rw [(delete_product_type_sync_indep db ptid race s).1,
        (delete_product_type_sync_indep db ptid race s').1]
  · rw [(delete_product_type_sync_indep db ptid race s).2,
        (delete_product_type_sync_indep db ptid race s').2]

/-- Witness for C4 at a concrete input over `c7db`: with the peer unreachable
(a request error), the update still succeeds, its committed state equals the
one obtained when the sync succeeds, and its message carries the sync-failure
description; same for delete (type 2 is unreferenced). -/
theorem claim_C4_witness :
    ((update_product_type c7db 1 ⟨"Cocoa", 1⟩ false (SyncOutcome.reqError "net down")).1 =
       (update_product_type c7db 1 ⟨"Cocoa", 1⟩ false SyncOutcome.ok).1) ∧
    ((update_product_type c7db 1 ⟨"Cocoa", 1⟩ false (SyncOutcome.reqError "net down")).2 =
       .ok ⟨strStrip ("Product type updated successfully in primary service (8001). "
                        ++ syncMsgUpdate 1 (SyncOutcome.reqError "net down"))⟩) ∧
    ((delete_product_type c7db 2 false (SyncOutcome.reqError "net down")).1 =
       (delete_product_type c7db 2 false SyncOutcome.ok).1) ∧
    ((delete_product_type c7db 2 false (SyncOutcome.reqError "net down")).2 =
       .ok ⟨strStrip ("Product type deleted successfully from primary service (8001). "
                        ++ syncMsgDelete 2 (SyncOutcome.reqError "net down"))⟩) :=
  ⟨(claim_C4_best_effort_sync c7db 1 ⟨"Cocoa", 1⟩ false (SyncOutcome.reqError "net down")
      SyncOutcome.ok).1,
   (claim_C4_best_effort_sync c7db 1 ⟨"Cocoa", 1⟩ false (SyncOutcome.reqError "net down")
      SyncOutcome.ok).2.2.1 (by rfl),
   (claim_C4_best_effort_sync c7db 2 ⟨"Cocoa", 1⟩ false (SyncOutcome.reqError "net down")
      SyncOutcome.ok).2.2.2.1,
   (claim_C4_best_effort_sync c7db 2 ⟨"Cocoa", 1⟩ false (SyncOutcome.reqError "net down")
      SyncOutcome.ok).2.2.2.2.2 (by rfl)⟩

end ProductServices
